import Mathlib

/-!
Shallow embedding of the ESP32 WiFi/BLE scanner firmware (`src/main.cpp`):
the UI state machine, the device registries, the scan routines and the
renderer.  Display text is modelled as `List Char`; machine time
(`millis()`, an unsigned 32-bit counter) is modelled as `Nat` with explicit
wrap-around subtraction.  The radio scans are black boxes: `scanWiFi` takes
the count reported by `WiFi.scanNetworks` plus per-index accessors, and
`scanBLE` takes the result set of the BLE scan as a list of advertised
devices.
-/

set_option autoImplicit false

namespace ESP32Sniffer

/-- A line of display text, one entry per character column. -/
abbrev Line := List Char

/-- Convert a string literal to its character list. -/
def str (s : String) : Line := s.toList

/-- Decimal rendering of a natural number, as written by `lcd.print(int)`. -/
def natLine (n : Nat) : Line := (toString n).toList

/-- Decimal rendering of a signed integer, as written by `lcd.print(int)`. -/
def intLine (i : Int) : Line := (toString i).toList

/-- Arduino `String::trim()`: strip leading and trailing whitespace. -/
def trimLine (l : Line) : Line :=
  ((l.dropWhile Char.isWhitespace).reverse.dropWhile Char.isWhitespace).reverse

/-- `#define MAX_WIFI_DEVICES 25` -/
def MAX_WIFI_DEVICES : Nat := 25

/-- `#define MAX_BLE_DEVICES 25` -/
def MAX_BLE_DEVICES : Nat := 25

/-- `const unsigned long SCAN_INTERVAL = 10000;` -/
def SCAN_INTERVAL : Nat := 10000

/-- `const unsigned long DEBOUNCE_DELAY = 200;` -/
def DEBOUNCE_DELAY : Nat := 200

/-- 2^32, the modulus of `unsigned long` arithmetic on the ESP32. -/
def UINT32_MOD : Nat := 4294967296

/-- `a - b` on `unsigned long` values (`millis()` timestamps), i.e.
subtraction modulo 2^32. -/
def unsignedSub32 (a b : Nat) : Nat :=
  (a % UINT32_MOD + (UINT32_MOD - b % UINT32_MOD)) % UINT32_MOD

/-- `enum MenuState` of the firmware. -/
inductive MenuState where
  | mainMenu
  | wifiScanList
  | bleScanList
  | wifiDetails
  | bleDetails
deriving DecidableEq, Repr

/-- `wifi_auth_mode_t` as consumed by `getWifiSecurityString`. -/
inductive WifiAuthMode where
  | authOpen
  | wep
  | wpaPsk
  | wpa2Psk
  | wpaWpa2Psk
  | wpa2Enterprise
  | authOther
deriving DecidableEq, Repr

/-- `String getWifiSecurityString(wifi_auth_mode_t security)` -/
def getWifiSecurityString : WifiAuthMode → Line
  | .authOpen => str "Open"
  | .wep => str "WEP"
  | .wpaPsk => str "WPA"
  | .wpa2Psk => str "WPA2"
  | .wpaWpa2Psk => str "WPA/WPA2"
  | .wpa2Enterprise => str "WPA2-E"
  | .authOther => str "Unknown"

/-- `struct WiFiDeviceInfo` -/
structure WiFiDeviceInfo where
  ssid : Line
  mac : Line
  channel : Int
  rssi : Int
  security : WifiAuthMode
deriving DecidableEq, Repr

/-- `struct BLEDeviceInfo` -/
structure BLEDeviceInfo where
  name : Line
  address : Line
  rssi : Int
  txPower : Int
  serviceUUID : Line
deriving DecidableEq, Repr

/-- Default-constructed `WiFiDeviceInfo`, the value of an unwritten
registry slot. -/
def defaultWifi : WiFiDeviceInfo :=
  { ssid := [], mac := [], channel := 0, rssi := 0, security := .authOther }

/-- Default-constructed `BLEDeviceInfo`. -/
def defaultBle : BLEDeviceInfo :=
  { name := [], address := [], rssi := 0, txPower := 0, serviceUUID := [] }

/-- The sequential index correction used by every draw routine:
`if (i < 0) i = n - 1; if (i >= n) i = 0;`.  (`drawMainMenu` writes the
same correction with the literals `1` and `> 1`, which coincides with
`n = 2`.) -/
def wrapIndex (idx : Int) (n : Nat) : Int :=
  let i1 := if idx < 0 then (n : Int) - 1 else idx
  if i1 ≥ (n : Int) then 0 else i1

/-!
## Renderer

Each `draw…` routine writes two display lines and, as a side effect,
mutates the global index it corrects (`listIndex` for the menu and list
screens, `detailPage` for the detail screens).  `RenderOut` records both:
`newIndex` is the value of the mutated global after the call.  Registry
reads `wifiDevices[listIndex]` are modelled as `List.getD` at
`listIndex.toNat`.
-/

/-- The two 16-column display lines plus the index global as corrected by
the draw routine. -/
structure RenderOut where
  line1 : Line
  line2 : Line
  newIndex : Int
deriving DecidableEq, Repr

/-- `void drawMainMenu()` -/
def drawMainMenu (listIndex : Int) : RenderOut :=
  let li := wrapIndex listIndex 2
  { line1 := if li = 0 then str "-> WiFi Scanner" else str "   WiFi Scanner"
    line2 := if li = 1 then str "-> BLE Scanner" else str "   BLE Scanner"
    newIndex := li }

/-- `void drawWifiList()` -/
def drawWifiList (wifiDevices : List WiFiDeviceInfo) (listIndex : Int) :
    RenderOut :=
  let wifiDeviceCount := wifiDevices.length
  let line1 := str "WiFi Networks " ++ natLine wifiDeviceCount
  if wifiDeviceCount = 0 then
    { line1 := line1, line2 := str "No networks found", newIndex := listIndex }
  else
    let li := wrapIndex listIndex wifiDeviceCount
    let ssid0 := (wifiDevices.getD li.toNat defaultWifi).ssid
    let ssid := if ssid0.length = 0 then str "Hidden Network" else ssid0
    { line1 := line1
      line2 := (str "-> " ++ ssid).take 16
      newIndex := li }

/-- `void drawBleList()` -/
def drawBleList (bleDevices : List BLEDeviceInfo) (listIndex : Int) :
    RenderOut :=
  let bleDeviceCount := bleDevices.length
  let line1 := str "BLE Devices   " ++ natLine bleDeviceCount
  if bleDeviceCount = 0 then
    { line1 := line1, line2 := str "No devices found", newIndex := listIndex }
  else
    let li := wrapIndex listIndex bleDeviceCount
    let name := (bleDevices.getD li.toNat defaultBle).name
    { line1 := line1
      line2 := (str "-> " ++ name).take 16
      newIndex := li }

/-- `void drawWifiDetails()` — corrects `detailPage` against
`totalPages = 3` but reads the registry at the stored `listIndex`
without any correction. -/
def drawWifiDetails (wifiDevices : List WiFiDeviceInfo) (listIndex : Int)
    (detailPage : Int) : RenderOut :=
  let totalPages : Nat := 3
  let page := wrapIndex detailPage totalPages
  let d := wifiDevices.getD listIndex.toNat defaultWifi
  let top0 := if d.ssid.length = 0 then str "Hidden Network" else d.ssid
  let line2 :=
    if page = 0 then str "RSSI: " ++ intLine d.rssi ++ str " dBm"
    else if page = 1 then d.mac
    else if page = 2 then
      str "Ch: " ++ intLine d.channel ++ str " Sec: " ++
        getWifiSecurityString d.security
    else []
  { line1 := (trimLine top0).take 16
    line2 := line2
    newIndex := page }

/-- `void drawBleDetails()` — corrects `detailPage` against
`totalPages = 4` but reads the registry at the stored `listIndex`
without any correction. -/
def drawBleDetails (bleDevices : List BLEDeviceInfo) (listIndex : Int)
    (detailPage : Int) : RenderOut :=
  let totalPages : Nat := 4
  let page := wrapIndex detailPage totalPages
  let d := bleDevices.getD listIndex.toNat defaultBle
  let line2 :=
    if page = 0 then str "RSSI: " ++ intLine d.rssi ++ str " dBm"
    else if page = 1 then d.address
    else if page = 2 then str "TX Power: " ++ intLine d.txPower ++ str " dB"
    else if page = 3 then str "UUID:" ++ d.serviceUUID
    else []
  { line1 := (trimLine d.name).take 16
    line2 := line2
    newIndex := page }

/-!
## Scan routines

The registries are a fixed 25-slot array plus a count of valid entries;
all reads stay below the count, so the pair is modelled as the list of
its first `count` records (`count = list.length`).
-/

/-- The black-box side of `WiFi.scanNetworks`: the reported count `n`
(an `int`, negative on error/in-progress) and the per-index accessors
`WiFi.SSID`, `WiFi.BSSIDstr`, `WiFi.channel`, `WiFi.RSSI`,
`WiFi.encryptionType`. -/
structure WiFiScanEnv where
  n : Int
  ssid : Nat → Line
  mac : Nat → Line
  channel : Nat → Int
  rssi : Nat → Int
  security : Nat → WifiAuthMode

/-- Result of `void scanWiFi()`: the rebuilt registry and whether
`WiFi.scanDelete()` was reached. -/
structure ScanWiFiOut where
  wifiDevices : List WiFiDeviceInfo
  scanDeleted : Bool
deriving Repr

/-- `void scanWiFi()` — resets the count, copies `min(n, MAX_WIFI_DEVICES)`
records when `n > 0`, and unconditionally calls `WiFi.scanDelete()`. -/
def scanWiFi (env : WiFiScanEnv) : ScanWiFiOut :=
  let wifiDeviceCount : Nat :=
    if 0 < env.n then min env.n.toNat MAX_WIFI_DEVICES else 0
  { wifiDevices :=
      (List.range wifiDeviceCount).map fun i =>
        { ssid := env.ssid i
          mac := env.mac i
          channel := env.channel i
          rssi := env.rssi i
          security := env.security i }
    scanDeleted := true }

/-- One entry of the `BLEScanResults` handed back by `pBLEScan->start`,
with the optional-field presence flags of `BLEAdvertisedDevice`. -/
structure BLEAdvertisedDevice where
  address : Line
  haveName : Bool
  name : Line
  haveRSSI : Bool
  rssi : Int
  haveTXPower : Bool
  txPower : Int
  haveServiceUUID : Bool
  serviceUUID : Line
deriving DecidableEq, Repr

/-- The registry record built from one advertised device (the body of the
`if (!found)` branch of `scanBLE`). -/
def mkBLERecord (d : BLEAdvertisedDevice) : BLEDeviceInfo :=
  { name := if d.haveName then d.name else str "N/A"
    address := d.address
    rssi := if d.haveRSSI then d.rssi else 0
    txPower := if d.haveTXPower then d.txPower else 0
    serviceUUID := if d.haveServiceUUID then d.serviceUUID else str "None" }

/-- The scan loop of `void scanBLE()`:
`for (int i = 0; i < count && bleDeviceCount < MAX_BLE_DEVICES; i++)`,
appending each device whose address is not yet in the registry. -/
def scanBLEAux : List BLEAdvertisedDevice → List BLEDeviceInfo →
    List BLEDeviceInfo
  | [], acc => acc
  | d :: rest, acc =>
    if acc.length < MAX_BLE_DEVICES then
      if acc.any (fun r => r.address = d.address) then
        scanBLEAux rest acc
      else
        scanBLEAux rest (acc ++ [mkBLERecord d])
    else acc

/-- `void scanBLE()` — rebuilds the BLE registry from the scan's result
set, deduplicating by address and stopping at capacity. -/
def scanBLE (foundDevices : List BLEAdvertisedDevice) : List BLEDeviceInfo :=
  scanBLEAux foundDevices []

/-- Specification-side dedup: keep each address's first occurrence, in
order.  `seen` is the list of addresses already kept. -/
def dedupByAddr : List BLEAdvertisedDevice → List Line →
    List BLEAdvertisedDevice
  | [], _ => []
  | d :: rest, seen =>
    if seen.any (fun a => a = d.address) then dedupByAddr rest seen
    else d :: dedupByAddr rest (d.address :: seen)

/-!
## Debounce

`bool isButtonPressed(int pin)` shares one `lastDebounceTime` across all
four buttons.  `pinLow` is the instantaneous active-low electrical read
`digitalRead(pin) == LOW`; `now` is `millis()`.
-/

/-- `bool isButtonPressed(int pin)`: returns whether the press registers
and the updated shared `lastDebounceTime`. -/
def isButtonPressed (pinLow : Bool) (now lastDebounceTime : Nat) :
    Bool × Nat :=
  if pinLow then
    if DEBOUNCE_DELAY < unsignedSub32 now lastDebounceTime then
      (true, now)
    else (false, lastDebounceTime)
  else (false, lastDebounceTime)

/-!
## Navigation state machine

The global mutable state of the firmware, minus the display (whose content
is a function of the rest).  One `stepEvent` models one loop iteration in
which exactly one button registers, or a scheduler tick.
-/

/-- The scan outcomes available to a `refreshScan` call: what the two
radios would report if asked now. -/
structure ScanEnv where
  wifi : WiFiScanEnv
  ble : List BLEAdvertisedDevice

/-- The firmware's global mutable state. -/
structure SysState where
  currentState : MenuState
  listIndex : Int
  detailPage : Int
  wifiDevices : List WiFiDeviceInfo
  bleDevices : List BLEDeviceInfo
  lastScanTime : Nat

/-- `void updateDisplay()` restricted to its effect on the state: the
draw routine of the current screen corrects the index global it uses. -/
def updateDisplayState (s : SysState) : SysState :=
  match s.currentState with
  | .mainMenu =>
    { s with listIndex := (drawMainMenu s.listIndex).newIndex }
  | .wifiScanList =>
    { s with listIndex := (drawWifiList s.wifiDevices s.listIndex).newIndex }
  | .bleScanList =>
    { s with listIndex := (drawBleList s.bleDevices s.listIndex).newIndex }
  | .wifiDetails =>
    { s with detailPage :=
        (drawWifiDetails s.wifiDevices s.listIndex s.detailPage).newIndex }
  | .bleDetails =>
    { s with detailPage :=
        (drawBleDetails s.bleDevices s.listIndex s.detailPage).newIndex }

/-- `void refreshScan()` — scans the radio of the current list screen,
resets `listIndex`, records the scan time, and redraws. -/
def refreshScan (env : ScanEnv) (now : Nat) (s : SysState) : SysState :=
  let s1 :=
    if s.currentState = .wifiScanList then
      { s with wifiDevices := (scanWiFi env.wifi).wifiDevices }
    else if s.currentState = .bleScanList then
      { s with bleDevices := scanBLE env.ble }
    else s
  updateDisplayState { s1 with listIndex := 0, lastScanTime := now }

/-- The `BTN_UP` branch of `void handleButtons()`. -/
def pressUp (s : SysState) : SysState :=
  if s.currentState = .wifiDetails ∨ s.currentState = .bleDetails then
    updateDisplayState { s with detailPage := s.detailPage - 1 }
  else
    updateDisplayState { s with listIndex := s.listIndex - 1 }

/-- The `BTN_DOWN` branch of `void handleButtons()`. -/
def pressDown (s : SysState) : SysState :=
  if s.currentState = .wifiDetails ∨ s.currentState = .bleDetails then
    updateDisplayState { s with detailPage := s.detailPage + 1 }
  else
    updateDisplayState { s with listIndex := s.listIndex + 1 }

/-- The `BTN_SELECT` branch of `void handleButtons()`. -/
def pressSelect (env : ScanEnv) (now : Nat) (s : SysState) : SysState :=
  let s := { s with detailPage := 0 }
  if s.currentState = .mainMenu then
    let s :=
      { s with currentState :=
          if s.listIndex = 0 then .wifiScanList else .bleScanList }
    updateDisplayState (refreshScan env now s)
  else if s.currentState = .wifiScanList ∧ 0 < s.wifiDevices.length then
    updateDisplayState { s with currentState := .wifiDetails }
  else if s.currentState = .bleScanList ∧ 0 < s.bleDevices.length then
    updateDisplayState { s with currentState := .bleDetails }
  else
    updateDisplayState s

/-- The `BTN_BACK` branch of `void handleButtons()`. -/
def pressBack (s : SysState) : SysState :=
  let s := { s with detailPage := 0 }
  let s :=
    { s with currentState :=
        match s.currentState with
        | .wifiDetails => .wifiScanList
        | .bleDetails => .bleScanList
        | _ => .mainMenu }
  updateDisplayState { s with listIndex := 0 }

/-- The auto-refresh condition of `void loop()`:
`(currentState == WIFI_SCAN_LIST || currentState == BLE_SCAN_LIST) &&
(millis() - lastScanTime > SCAN_INTERVAL)`. -/
def loopTriggersRescan (st : MenuState) (now lastScanTime : Nat) : Prop :=
  (st = .wifiScanList ∨ st = .bleScanList) ∧
    SCAN_INTERVAL < unsignedSub32 now lastScanTime

instance (st : MenuState) (now lastScanTime : Nat) :
    Decidable (loopTriggersRescan st now lastScanTime) := by
  unfold loopTriggersRescan
  infer_instance

/-- The events one loop iteration can process: one registered button, or
the scheduler check. -/
inductive Event where
  | up
  | down
  | select
  | back
  | tick
deriving DecidableEq, Repr

/-- One loop iteration of the firmware, given the event that fires, the
current `millis()` reading and the scan outcomes. -/
def stepEvent (env : ScanEnv) (now : Nat) : Event → SysState → SysState
  | .up, s => pressUp s
  | .down, s => pressDown s
  | .select, s => pressSelect env now s
  | .back, s => pressBack s
  | .tick, s =>
    if loopTriggersRescan s.currentState now s.lastScanTime then
      refreshScan env now s
    else s

/-- The state after `setup()`: empty registries, main menu, index 0. -/
def initState : SysState :=
  { currentState := .mainMenu
    listIndex := 0
    detailPage := 0
    wifiDevices := []
    bleDevices := []
    lastScanTime := 0 }

/-- States the firmware can reach from power-on, for any interleaving of
button presses, ticks and scan outcomes. -/
inductive Reachable : SysState → Prop where
  | init : Reachable initState
  | step (env : ScanEnv) (now : Nat) (e : Event) {s : SysState} :
      Reachable s → Reachable (stepEvent env now e s)

/-!
## Concrete inputs used by the witness theorems
-/

/-- An ordinary WiFi record with a full-length BSSID. -/
def exampleWifiDevice : WiFiDeviceInfo :=
  { ssid := str "HomeNet"
    mac := str "AA:BB:CC:DD:EE:FF"
    channel := 11
    rssi := -60
    security := .wpaWpa2Psk }

/-- An ordinary BLE registry record. -/
def exampleBleDevice : BLEDeviceInfo :=
  { name := str "Tracker"
    address := str "11:22:33:44:55:66"
    rssi := -70
    txPower := 4
    serviceUUID := str "None" }

/-- An advertised BLE device with the given address. -/
def exampleAdv (address : Line) : BLEAdvertisedDevice :=
  { address := address
    haveName := true
    name := str "Tracker"
    haveRSSI := true
    rssi := -70
    haveTXPower := false
    txPower := 0
    haveServiceUUID := false
    serviceUUID := [] }

/-- A WiFi radio report of one network. -/
def exampleWifiEnv : WiFiScanEnv :=
  { n := 1
    ssid := fun _ => str "HomeNet"
    mac := fun _ => str "AA:BB:CC:DD:EE:FF"
    channel := fun _ => 11
    rssi := fun _ => -60
    security := fun _ => .wpa2Psk }

/-- A scan environment: one WiFi network, one BLE device. -/
def exampleScanEnv : ScanEnv :=
  { wifi := exampleWifiEnv
    ble := [exampleAdv (str "11:22:33:44:55:66")] }

/-- A WiFi radio report of 30 networks (more than capacity). -/
def exampleWifiEnvMany : WiFiScanEnv :=
  { exampleWifiEnv with n := 30 }

/-- A WiFi radio error report (`WiFi.scanNetworks` returned `-1`). -/
def exampleWifiEnvErr : WiFiScanEnv :=
  { exampleWifiEnv with n := -1 }

/-- A state sitting on the WiFi list screen with one scanned network and
an old `lastScanTime`. -/
def exampleListState : SysState :=
  { currentState := .wifiScanList
    listIndex := 0
    detailPage := 0
    wifiDevices := [exampleWifiDevice]
    bleDevices := []
    lastScanTime := 0 }

/-- The state reached from power-on by selecting "WiFi Scanner" in the
main menu and then selecting the first found network: the WiFi detail
screen. -/
def exampleDetailState : SysState :=
  stepEvent exampleScanEnv 200 .select
    (stepEvent exampleScanEnv 100 .select initState)

/-- The navigation invariant maintained by every loop iteration: on a
list screen with a non-empty registry the stored `listIndex` is in
bounds, and on a detail screen the registry is non-empty and the stored
`listIndex` is in bounds (the detail draws perform no correction of
`listIndex`). -/
def NavInv (s : SysState) : Prop :=
  (s.currentState = .wifiScanList → 0 < s.wifiDevices.length →
    0 ≤ s.listIndex ∧ s.listIndex < (s.wifiDevices.length : Int)) ∧
  (s.currentState = .bleScanList → 0 < s.bleDevices.length →
    0 ≤ s.listIndex ∧ s.listIndex < (s.bleDevices.length : Int)) ∧
  (s.currentState = .wifiDetails →
    0 < s.wifiDevices.length ∧ 0 ≤ s.listIndex ∧
      s.listIndex < (s.wifiDevices.length : Int)) ∧
  (s.currentState = .bleDetails →
    0 < s.bleDevices.length ∧ 0 ≤ s.listIndex ∧
      s.listIndex < (s.bleDevices.length : Int))

/-- After the draw-time correction the index lies in `[0, n)` for any
stored value, as soon as `n > 0`. -/
theorem wrapIndex_mem (idx : Int) (n : Nat) (hn : 0 < n) :
    0 ≤ wrapIndex idx n ∧ wrapIndex idx n < (n : Int) := by
  simp only [wrapIndex]
  split <;> split <;> omega

/-- `wrapIndex` fixes an in-range index. -/
theorem wrapIndex_of_mem (idx : Int) (n : Nat) (h0 : 0 ≤ idx)
    (h1 : idx < (n : Int)) : wrapIndex idx n = idx := by
  simp only [wrapIndex]
  split <;> split <;> omega

/-- `wrapIndex 0 n = 0` for every `n` (also for `n = 0`). -/
theorem wrapIndex_zero (n : Nat) : wrapIndex 0 n = 0 := by
  simp only [wrapIndex]
  split <;> omega

/-!
## Helper lemmas: field projections and index bounds
-/

theorem updateDisplayState_currentState (s : SysState) :
    (updateDisplayState s).currentState = s.currentState := by
  cases s with
  | mk st li dp w b t => cases st <;> rfl

theorem updateDisplayState_wifiDevices (s : SysState) :
    (updateDisplayState s).wifiDevices = s.wifiDevices := by
  cases s with
  | mk st li dp w b t => cases st <;> rfl

theorem updateDisplayState_bleDevices (s : SysState) :
    (updateDisplayState s).bleDevices = s.bleDevices := by
  cases s with
  | mk st li dp w b t => cases st <;> rfl

theorem updateDisplayState_lastScanTime (s : SysState) :
    (updateDisplayState s).lastScanTime = s.lastScanTime := by
  cases s with
  | mk st li dp w b t => cases st <;> rfl

/-- The draw routines of the detail screens leave `listIndex` alone. -/
theorem updateDisplayState_listIndex_details (s : SysState)
    (h : s.currentState = .wifiDetails ∨ s.currentState = .bleDetails) :
    (updateDisplayState s).listIndex = s.listIndex := by
  cases s with
  | mk st li dp w b t =>
    cases st <;> simp_all [updateDisplayState]

theorem drawMainMenu_newIndex (listIndex : Int) :
    0 ≤ (drawMainMenu listIndex).newIndex ∧
      (drawMainMenu listIndex).newIndex < 2 := by
  simpa [drawMainMenu] using wrapIndex_mem listIndex 2 (by omega)

theorem drawWifiList_newIndex (wifiDevices : List WiFiDeviceInfo)
    (listIndex : Int) (h : 0 < wifiDevices.length) :
    0 ≤ (drawWifiList wifiDevices listIndex).newIndex ∧
      (drawWifiList wifiDevices listIndex).newIndex <
        (wifiDevices.length : Int) := by
  have := wrapIndex_mem listIndex wifiDevices.length h
  simp only [drawWifiList]
  rw [if_neg (by omega)]
  exact this

theorem drawBleList_newIndex (bleDevices : List BLEDeviceInfo)
    (listIndex : Int) (h : 0 < bleDevices.length) :
    0 ≤ (drawBleList bleDevices listIndex).newIndex ∧
      (drawBleList bleDevices listIndex).newIndex <
        (bleDevices.length : Int) := by
  have := wrapIndex_mem listIndex bleDevices.length h
  simp only [drawBleList]
  rw [if_neg (by omega)]
  exact this

theorem drawWifiDetails_newIndex (wifiDevices : List WiFiDeviceInfo)
    (listIndex detailPage : Int) :
    0 ≤ (drawWifiDetails wifiDevices listIndex detailPage).newIndex ∧
      (drawWifiDetails wifiDevices listIndex detailPage).newIndex < 3 := by
  simpa [drawWifiDetails] using wrapIndex_mem detailPage 3 (by omega)

theorem drawBleDetails_newIndex (bleDevices : List BLEDeviceInfo)
    (listIndex detailPage : Int) :
    0 ≤ (drawBleDetails bleDevices listIndex detailPage).newIndex ∧
      (drawBleDetails bleDevices listIndex detailPage).newIndex < 4 := by
  simpa [drawBleDetails] using wrapIndex_mem detailPage 4 (by omega)

/-- A zero list index is a fixed point of every list draw. -/
theorem drawWifiList_newIndex_zero (wifiDevices : List WiFiDeviceInfo) :
    (drawWifiList wifiDevices 0).newIndex = 0 := by
  simp only [drawWifiList]
  split
  · rfl
  · simp [wrapIndex_zero]

theorem drawBleList_newIndex_zero (bleDevices : List BLEDeviceInfo) :
    (drawBleList bleDevices 0).newIndex = 0 := by
  simp only [drawBleList]
  split
  · rfl
  · simp [wrapIndex_zero]

/-- Rendering a state whose `listIndex` is `0` leaves it `0`. -/
theorem updateDisplayState_listIndex_zero (s : SysState)
    (h : s.listIndex = 0) : (updateDisplayState s).listIndex = 0 := by
  cases s with
  | mk st li dp w b t =>
    subst h
    cases st <;>
      simp [updateDisplayState, drawMainMenu, wrapIndex_zero,
        drawWifiList_newIndex_zero, drawBleList_newIndex_zero]

/-- Decimal rendering of a count of at most 25 takes at most two columns. -/
theorem natLine_length_le (n : Nat) (h : n ≤ 25) : (natLine n).length ≤ 2 := by
  interval_cases n <;> decide

/-!
## C1 — render-time index normalization
-/

/-- C1: after any render pass, the effective index the draw routine uses
is within `[0, count)` on the list screens (when `count > 0`) and within
`[0, totalPages)` on the detail screens (`totalPages = 3` for WiFi, `4`
for BLE), for every stored index, including negative ones and ones `≥`
the bound; the out-of-range value is renormalized, never an error. -/
theorem C1_render_normalizes_indices (wifiDevices : List WiFiDeviceInfo)
    (bleDevices : List BLEDeviceInfo) (listIndex detailPage : Int) :
    (0 < wifiDevices.length →
      0 ≤ (drawWifiList wifiDevices listIndex).newIndex ∧
        (drawWifiList wifiDevices listIndex).newIndex <
          (wifiDevices.length : Int)) ∧
    (0 < bleDevices.length →
      0 ≤ (drawBleList bleDevices listIndex).newIndex ∧
        (drawBleList bleDevices listIndex).newIndex <
          (bleDevices.length : Int)) ∧
    (0 ≤ (drawWifiDetails wifiDevices listIndex detailPage).newIndex ∧
      (drawWifiDetails wifiDevices listIndex detailPage).newIndex < 3) ∧
    (0 ≤ (drawBleDetails bleDevices listIndex detailPage).newIndex ∧
      (drawBleDetails bleDevices listIndex detailPage).newIndex < 4) ∧
    (0 ≤ (drawMainMenu listIndex).newIndex ∧
      (drawMainMenu listIndex).newIndex < 2) :=
  ⟨drawWifiList_newIndex wifiDevices listIndex,
   drawBleList_newIndex bleDevices listIndex,
   drawWifiDetails_newIndex wifiDevices listIndex detailPage,
   drawBleDetails_newIndex bleDevices listIndex detailPage,
   drawMainMenu_newIndex listIndex⟩

/-- C1 witness: a stored index of `-5` against a one-element WiFi list is
renormalized into `[0, 1)` by the render pass. -/
theorem C1_witness :
    0 ≤ (drawWifiList [exampleWifiDevice] (-5)).newIndex ∧
      (drawWifiList [exampleWifiDevice] (-5)).newIndex <
        (([exampleWifiDevice] : List WiFiDeviceInfo).length : Int) :=
  (C1_render_normalizes_indices [exampleWifiDevice] [exampleBleDevice]
    (-5) 7).1 (by decide)

/-!
## C2 — 16-column truncation (corrected)

The draws truncate with `substring(0, 16)` only the list entry line and
the detail top line.  The second line of the detail screens is printed in
full: a 17-character BSSID already overflows, as does the fixed text
`"No networks found"` (17 characters) on an empty WiFi list.
-/

/-- C2 counterexample: the claim says every rendered line is at most 16
characters, but detail page 1 prints the full 17-character MAC address,
and the empty WiFi list prints the 17-character `"No networks found"`. -/
theorem C2_counterexample :
    16 < (drawWifiDetails [exampleWifiDevice] 0 1).line2.length ∧
      16 < (drawWifiList [] 0).line2.length := by
  decide

/-- C2 amended: the lines the renderer builds with `substring(0, 16)` —
list entry lines and detail top lines — and the fixed menu labels and
count headers stay within 16 columns (the headers because the counts are
capped at 25); but detail-screen line 2 and the empty-WiFi-list message
are written untruncated and may exceed 16 characters. -/
theorem C2_amended_truncation (wifiDevices : List WiFiDeviceInfo)
    (bleDevices : List BLEDeviceInfo) (listIndex detailPage : Int)
    (hw : wifiDevices.length ≤ MAX_WIFI_DEVICES)
    (hb : bleDevices.length ≤ MAX_BLE_DEVICES)
    (hw0 : 0 < wifiDevices.length) :
    (drawMainMenu listIndex).line1.length ≤ 16 ∧
    (drawMainMenu listIndex).line2.length ≤ 16 ∧
    (drawWifiList wifiDevices listIndex).line1.length ≤ 16 ∧
    (drawWifiList wifiDevices listIndex).line2.length ≤ 16 ∧
    (drawBleList bleDevices listIndex).line1.length ≤ 16 ∧
    (drawBleList bleDevices listIndex).line2.length ≤ 16 ∧
    (drawWifiDetails wifiDevices listIndex detailPage).line1.length ≤ 16 ∧
    (drawBleDetails bleDevices listIndex detailPage).line1.length ≤ 16 := by
  have hw2 : (natLine wifiDevices.length).length ≤ 2 :=
    natLine_length_le _ (by simpa [MAX_WIFI_DEVICES] using hw)
  have hb2 : (natLine bleDevices.length).length ≤ 2 :=
    natLine_length_le _ (by simpa [MAX_BLE_DEVICES] using hb)
  refine ⟨?_, ?_, ?_, ?_, ?_, ?_, ?_, ?_⟩
  · simp only [drawMainMenu]
    split <;> decide
  · simp only [drawMainMenu]
    split <;> decide
  · simp only [drawWifiList]
    split <;> simp_all [str, List.length_append]
  · simp only [drawWifiList]
    rw [if_neg (by omega)]
    simp [List.length_take]
  · simp only [drawBleList]
    split <;> simp_all [str, List.length_append]
  · simp only [drawBleList]
    split
    · show (str "No devices found").length ≤ 16
      decide
    · simp [List.length_take]
  · simp only [drawWifiDetails]
    simp [List.length_take]
  · simp only [drawBleDetails]
    simp [List.length_take]

/-- C2 amended witness: the truncation bounds at a concrete non-empty
WiFi registry and BLE registry. -/
theorem C2_amended_witness :
    (drawWifiList [exampleWifiDevice] 3).line2.length ≤ 16 ∧
      (drawWifiDetails [exampleWifiDevice] 0 2).line1.length ≤ 16 :=
  ⟨(C2_amended_truncation [exampleWifiDevice] [exampleBleDevice] 3 2
      (by decide) (by decide) (by decide)).2.2.2.1,
   (C2_amended_truncation [exampleWifiDevice] [exampleBleDevice] 0 2
      (by decide) (by decide) (by decide)).2.2.2.2.2.2.1⟩

/-!
## Scan-loop lemmas
-/

/-- The BLE scan loop never grows the registry beyond capacity. -/
theorem scanBLEAux_length (rest : List BLEAdvertisedDevice) :
    ∀ acc : List BLEDeviceInfo, acc.length ≤ MAX_BLE_DEVICES →
      (scanBLEAux rest acc).length ≤ MAX_BLE_DEVICES := by
  induction rest with
  | nil => intro acc h; simpa [scanBLEAux] using h
  | cons d rest ih =>
    intro acc h
    simp only [scanBLEAux]
    split
    · split
      · exact ih acc h
      · exact ih _ (by simp [List.length_append]; omega)
    · exact h

/-- The BLE scan loop preserves address distinctness of the registry. -/
theorem scanBLEAux_nodup (rest : List BLEAdvertisedDevice) :
    ∀ acc : List BLEDeviceInfo, (acc.map BLEDeviceInfo.address).Nodup →
      ((scanBLEAux rest acc).map BLEDeviceInfo.address).Nodup := by
  induction rest with
  | nil => intro acc h; simpa [scanBLEAux] using h
  | cons d rest ih =>
    intro acc h
    simp only [scanBLEAux]
    split
    · split
      · exact ih acc h
      · rename_i hcap hany
        apply ih
        simp only [List.map_append, List.map_cons, List.map_nil]
        rw [List.nodup_append]
        refine ⟨h, List.nodup_singleton _, ?_⟩
        intro a ha hb
        simp only [List.mem_singleton, mkBLERecord] at hb
        subst hb
        obtain ⟨r, hr, hra⟩ := List.mem_map.mp ha
        exact absurd (List.any_eq_true.mpr ⟨r, hr, by simp [hra]⟩) hany
    · exact h

/-- The BLE scan loop computes the first `MAX_BLE_DEVICES` address-unique
devices, in result-set order: it equals `dedupByAddr` truncated to the
remaining capacity, whenever `seen` matches the addresses of `acc`. -/
theorem scanBLEAux_eq_dedup (rest : List BLEAdvertisedDevice) :
    ∀ (acc : List BLEDeviceInfo) (seen : List Line),
      acc.length ≤ MAX_BLE_DEVICES →
      (∀ a : Line, seen.any (fun x => x = a) =
        acc.any (fun r => r.address = a)) →
      scanBLEAux rest acc =
        acc ++ ((dedupByAddr rest seen).map mkBLERecord).take
          (MAX_BLE_DEVICES - acc.length) := by
  induction rest with
  | nil => intro acc seen h hs; simp [scanBLEAux, dedupByAddr]
  | cons d rest ih =>
    intro acc seen h hs
    simp only [scanBLEAux, dedupByAddr]
    by_cases hlt : acc.length < MAX_BLE_DEVICES
    · rw [if_pos hlt]
      by_cases hany : acc.any (fun r => r.address = d.address) = true
      · rw [if_pos hany, if_pos (by rw [hs d.address]; exact hany)]
        exact ih acc seen h hs
      · rw [if_neg hany, if_neg (by rw [hs d.address]; exact hany)]
        rw [ih (acc ++ [mkBLERecord d]) (d.address :: seen)
          (by simp [List.length_append]; omega) ?_]
        · have harith : MAX_BLE_DEVICES - acc.length =
            (MAX_BLE_DEVICES - (acc ++ [mkBLERecord d]).length) + 1 := by
            simp only [List.length_append, List.length_singleton]
            omega
          rw [List.map_cons, harith, List.take_succ_cons, List.append_assoc]
          rfl
        · intro a
          simp only [List.any_cons, List.any_append, List.any_nil,
            Bool.or_false, mkBLERecord]
          rw [hs a, Bool.or_comm]
    · rw [if_neg hlt]
      have : MAX_BLE_DEVICES - acc.length = 0 := by omega
      simp [this]

/-!
## C3 — BLE deduplication
-/

/-- C3: after a completed `scanBLE` pass the BLE registry holds no two
records with the same address, and the records kept are exactly the first
address-unique devices of the result set, in result-set order, truncated
at capacity. -/
theorem C3_scanBLE_dedup (foundDevices : List BLEAdvertisedDevice) :
    ((scanBLE foundDevices).map BLEDeviceInfo.address).Nodup ∧
      scanBLE foundDevices =
        ((dedupByAddr foundDevices []).map mkBLERecord).take
          MAX_BLE_DEVICES := by
  constructor
  · exact scanBLEAux_nodup foundDevices [] (by simp)
  · have := scanBLEAux_eq_dedup foundDevices [] []
      (by simp [MAX_BLE_DEVICES]) (by intro a; simp)
    simpa [scanBLE] using this

/-!
## C4 — registry capacity
-/

/-- C4: for every count the radios report, the registries rebuilt by
`scanWiFi` and `scanBLE` never exceed the capacity of 25; the entries
kept are the first-discovered ones (for WiFi, the records at scan indices
`0, 1, …` up to the capped count; for BLE, the first address-unique
devices), and the rest are dropped. -/
theorem C4_registry_capacity (env : WiFiScanEnv)
    (foundDevices : List BLEAdvertisedDevice) :
    (scanWiFi env).wifiDevices.length ≤ MAX_WIFI_DEVICES ∧
      (scanBLE foundDevices).length ≤ MAX_BLE_DEVICES ∧
      (∀ i : Nat, i < (scanWiFi env).wifiDevices.length →
        (scanWiFi env).wifiDevices.getD i defaultWifi =
          { ssid := env.ssid i, mac := env.mac i, channel := env.channel i,
            rssi := env.rssi i, security := env.security i }) ∧
      scanBLE foundDevices =
        ((dedupByAddr foundDevices []).map mkBLERecord).take
          MAX_BLE_DEVICES := by
  refine ⟨?_, ?_, ?_, ?_⟩
  · simp only [scanWiFi, List.length_map, List.length_range]
    split <;> omega
  · exact scanBLEAux_length foundDevices [] (by simp)
  · intro i hi
    simp only [scanWiFi, List.length_map, List.length_range] at hi
    simp [scanWiFi, List.getD, List.getElem?_map, List.getElem?_range, hi]
  · have := scanBLEAux_eq_dedup foundDevices [] []
      (by simp [MAX_BLE_DEVICES]) (by intro a; simp)
    simpa [scanBLE] using this

/-- C4 witness: a 30-network report is truncated to the 25-record
capacity, and slot 0 holds the first-discovered network. -/
theorem C4_witness :
    (scanWiFi exampleWifiEnvMany).wifiDevices.length ≤ MAX_WIFI_DEVICES ∧
      (scanWiFi exampleWifiEnvMany).wifiDevices.getD 0 defaultWifi =
        { ssid := exampleWifiEnvMany.ssid 0
          mac := exampleWifiEnvMany.mac 0
          channel := exampleWifiEnvMany.channel 0
          rssi := exampleWifiEnvMany.rssi 0
          security := exampleWifiEnvMany.security 0 } :=
  ⟨(C4_registry_capacity exampleWifiEnvMany []).1,
   (C4_registry_capacity exampleWifiEnvMany []).2.2.1 0 (by decide)⟩

/-!
## C8 — scanWiFi count reset and result release
-/

/-- C8: `scanWiFi` resets the WiFi count, sets it to
`min(reported count, 25)` when the report is positive and leaves it `0`
otherwise (including error/negative returns), and always reaches
`WiFi.scanDelete()` regardless of the count. -/
theorem C8_scanWiFi_count_and_release (env : WiFiScanEnv) :
    (scanWiFi env).scanDeleted = true ∧
      (0 < env.n →
        (scanWiFi env).wifiDevices.length =
          min env.n.toNat MAX_WIFI_DEVICES) ∧
      (env.n ≤ 0 → (scanWiFi env).wifiDevices.length = 0) := by
  refine ⟨rfl, ?_, ?_⟩
  · intro h
    simp only [scanWiFi, List.length_map, List.length_range]
    rw [if_pos h]
  · intro h
    simp only [scanWiFi, List.length_map, List.length_range]
    rw [if_neg (by omega)]

/-- C8 witness: a report of 30 networks is capped at 25 and the results
are released; an error report of `-1` leaves the count at 0 and still
releases the results. -/
theorem C8_witness :
    (scanWiFi exampleWifiEnvMany).scanDeleted = true ∧
      (scanWiFi exampleWifiEnvMany).wifiDevices.length =
        min (Int.toNat 30) MAX_WIFI_DEVICES ∧
      (scanWiFi exampleWifiEnvErr).wifiDevices.length = 0 :=
  ⟨(C8_scanWiFi_count_and_release exampleWifiEnvMany).1,
   (C8_scanWiFi_count_and_release exampleWifiEnvMany).2.1 (by decide),
   (C8_scanWiFi_count_and_release exampleWifiEnvErr).2.2 (by decide)⟩

/-!
## C6 — periodic rescan condition
-/

/-- C6: a loop iteration triggers the periodic rescan exactly when the
current state is a list screen and more than `SCAN_INTERVAL` (10000 ms)
elapsed since `lastScanTime`; when the condition holds the iteration runs
`refreshScan`, otherwise the state is untouched — in particular no
periodic rescan ever fires in the main menu or the detail screens. -/
theorem C6_periodic_rescan (env : ScanEnv) (now : Nat) (s : SysState)
    (h1 : s.lastScanTime ≤ now) (h2 : now < UINT32_MOD) :
    (loopTriggersRescan s.currentState now s.lastScanTime ↔
      ((s.currentState = .wifiScanList ∨ s.currentState = .bleScanList) ∧
        SCAN_INTERVAL < now - s.lastScanTime)) ∧
    (loopTriggersRescan s.currentState now s.lastScanTime →
      stepEvent env now .tick s = refreshScan env now s) ∧
    (¬ loopTriggersRescan s.currentState now s.lastScanTime →
      stepEvent env now .tick s = s) := by
  refine ⟨and_congr_right fun _ => ?_, fun h => ?_, fun h => ?_⟩
  · unfold unsignedSub32 UINT32_MOD SCAN_INTERVAL at *
    omega
  · simp [stepEvent, h]
  · simp [stepEvent, h]

/-- C6 witness: on the WiFi list screen 20000 ms after the last scan, the
tick rescans; the same reading in the main menu (as at power-on) does
nothing. -/
theorem C6_witness :
    stepEvent exampleScanEnv 20000 .tick exampleListState =
      refreshScan exampleScanEnv 20000 exampleListState :=
  (C6_periodic_rescan exampleScanEnv 20000 exampleListState (by decide)
    (by decide)).2.1 (by decide)

/-!
## C7 — shared debounce window
-/

/-- C7: whenever any button registers as pressed, the shared
`lastDebounceTime` is reset to the press time, and a press of any button
(the same or a different one) within the next `DEBOUNCE_DELAY` (200 ms)
does not register. -/
theorem C7_shared_debounce (p1 p2 : Bool) (t1 t2 lastDebounceTime : Nat)
    (h1 : t1 ≤ t2) (h2 : t2 < UINT32_MOD)
    (hwin : t2 - t1 ≤ DEBOUNCE_DELAY)
    (hreg : (isButtonPressed p1 t1 lastDebounceTime).1 = true) :
    (isButtonPressed p1 t1 lastDebounceTime).2 = t1 ∧
      (isButtonPressed p2 t2
        (isButtonPressed p1 t1 lastDebounceTime).2).1 = false := by
  have hp : isButtonPressed p1 t1 lastDebounceTime = (true, t1) := by
    unfold isButtonPressed at hreg ⊢
    split at hreg
    · split at hreg
      · simp_all
      · simp_all
    · simp_all
  rw [hp]
  refine ⟨rfl, ?_⟩
  have hno : ¬ DEBOUNCE_DELAY < unsignedSub32 t2 t1 := by
    unfold unsignedSub32 UINT32_MOD DEBOUNCE_DELAY at *
    omega
  unfold isButtonPressed
  cases p2 <;> simp [hno]

/-- C7 witness: a press registering at 1000 ms resets the shared timer to
1000, and a press of another button at 1100 ms is dropped. -/
theorem C7_witness :
    (isButtonPressed true 1000 0).2 = 1000 ∧
      (isButtonPressed true 1100 (isButtonPressed true 1000 0).2).1 =
        false :=
  C7_shared_debounce true true 1000 1100 0 (by decide) (by decide)
    (by decide) (by decide)

/-!
## Navigation invariant lemmas
-/

/-- A render pass establishes the navigation invariant on the menu and
list screens by itself; on the detail screens (which do not correct
`listIndex`) it needs the bounds to hold already. -/
theorem navInv_updateDisplayState (s : SysState)
    (hw : s.currentState = .wifiDetails →
      0 < s.wifiDevices.length ∧ 0 ≤ s.listIndex ∧
        s.listIndex < (s.wifiDevices.length : Int))
    (hb : s.currentState = .bleDetails →
      0 < s.bleDevices.length ∧ 0 ≤ s.listIndex ∧
        s.listIndex < (s.bleDevices.length : Int)) :
    NavInv (updateDisplayState s) := by
  obtain ⟨st, li, dp, w, b, t⟩ := s
  cases st
  case mainMenu => simp [NavInv, updateDisplayState]
  case wifiScanList =>
    simp only [NavInv, updateDisplayState]
    refine ⟨fun _ hc => ?_, by simp, by simp, by simp⟩
    exact drawWifiList_newIndex w li hc
  case bleScanList =>
    simp only [NavInv, updateDisplayState]
    refine ⟨by simp, fun _ hc => ?_, by simp, by simp⟩
    exact drawBleList_newIndex b li hc
  case wifiDetails =>
    simp only [NavInv, updateDisplayState]
    exact ⟨by simp, by simp, fun _ => hw rfl, by simp⟩
  case bleDetails =>
    simp only [NavInv, updateDisplayState]
    exact ⟨by simp, by simp, by simp, fun _ => hb rfl⟩

/-- `refreshScan` does not change the current screen. -/
theorem refreshScan_currentState (env : ScanEnv) (now : Nat) (s : SysState) :
    (refreshScan env now s).currentState = s.currentState := by
  unfold refreshScan
  rw [updateDisplayState_currentState]
  split
  · rfl
  · split <;> rfl

/-- `refreshScan` always leaves `listIndex = 0`. -/
theorem refreshScan_listIndex (env : ScanEnv) (now : Nat) (s : SysState) :
    (refreshScan env now s).listIndex = 0 := by
  unfold refreshScan
  exact updateDisplayState_listIndex_zero _ rfl

/-- `refreshScan` records the scan time. -/
theorem refreshScan_lastScanTime (env : ScanEnv) (now : Nat) (s : SysState) :
    (refreshScan env now s).lastScanTime = now := by
  unfold refreshScan
  rw [updateDisplayState_lastScanTime]

theorem navInv_refreshScan (env : ScanEnv) (now : Nat) (s : SysState)
    (hw : s.currentState ≠ .wifiDetails)
    (hb : s.currentState ≠ .bleDetails) :
    NavInv (refreshScan env now s) := by
  obtain ⟨st, li, dp, w, b, t⟩ := s
  cases st
  case wifiDetails => exact absurd rfl hw
  case bleDetails => exact absurd rfl hb
  all_goals
    simp only [refreshScan]
    apply navInv_updateDisplayState <;> intro hc <;> simp at hc

theorem navInv_pressUp (s : SysState) (h : NavInv s) :
    NavInv (pressUp s) := by
  obtain ⟨st, li, dp, w, b, t⟩ := s
  obtain ⟨h1, h2, h3, h4⟩ := h
  cases st
  case mainMenu =>
    simp only [pressUp]
    rw [if_neg (by simp)]
    apply navInv_updateDisplayState <;> intro hc <;> simp at hc
  case wifiScanList =>
    simp only [pressUp]
    rw [if_neg (by simp)]
    apply navInv_updateDisplayState <;> intro hc <;> simp at hc
  case bleScanList =>
    simp only [pressUp]
    rw [if_neg (by simp)]
    apply navInv_updateDisplayState <;> intro hc <;> simp at hc
  case wifiDetails =>
    simp only [pressUp]
    rw [if_pos (by simp)]
    apply navInv_updateDisplayState
    · intro _
      exact h3 rfl
    · intro hc
      simp at hc
  case bleDetails =>
    simp only [pressUp]
    rw [if_pos (by simp)]
    apply navInv_updateDisplayState
    · intro hc
      simp at hc
    · intro _
      exact h4 rfl

theorem navInv_pressDown (s : SysState) (h : NavInv s) :
    NavInv (pressDown s) := by
  obtain ⟨st, li, dp, w, b, t⟩ := s
  obtain ⟨h1, h2, h3, h4⟩ := h
  cases st
  case mainMenu =>
    simp only [pressDown]
    rw [if_neg (by simp)]
    apply navInv_updateDisplayState <;> intro hc <;> simp at hc
  case wifiScanList =>
    simp only [pressDown]
    rw [if_neg (by simp)]
    apply navInv_updateDisplayState <;> intro hc <;> simp at hc
  case bleScanList =>
    simp only [pressDown]
    rw [if_neg (by simp)]
    apply navInv_updateDisplayState <;> intro hc <;> simp at hc
  case wifiDetails =>
    simp only [pressDown]
    rw [if_pos (by simp)]
    apply navInv_updateDisplayState
    · intro _
      exact h3 rfl
    · intro hc
      simp at hc
  case bleDetails =>
    simp only [pressDown]
    rw [if_pos (by simp)]
    apply navInv_updateDisplayState
    · intro hc
      simp at hc
    · intro _
      exact h4 rfl

theorem navInv_pressBack (s : SysState) : NavInv (pressBack s) := by
  obtain ⟨st, li, dp, w, b, t⟩ := s
  cases st <;>
    (simp only [pressBack]
     apply navInv_updateDisplayState <;> intro hc <;> simp at hc)

theorem navInv_pressSelect (env : ScanEnv) (now : Nat) (s : SysState)
    (h : NavInv s) : NavInv (pressSelect env now s) := by
  obtain ⟨st, li, dp, w, b, t⟩ := s
  obtain ⟨h1, h2, h3, h4⟩ := h
  cases st
  case mainMenu =>
    simp only [pressSelect]
    rw [if_pos trivial]
    apply navInv_updateDisplayState <;> intro hc <;>
      rw [refreshScan_currentState] at hc <;> revert hc <;>
      split <;> intro hc <;> simp at hc
  case wifiScanList =>
    simp only [pressSelect]
    rw [if_neg (by simp)]
    by_cases hlen : 0 < w.length
    · rw [if_pos ⟨trivial, hlen⟩]
      apply navInv_updateDisplayState
      · intro _
        exact ⟨hlen, h1 rfl hlen⟩
      · intro hc
        simp at hc
    · rw [if_neg (by rintro ⟨_, hl⟩; exact hlen hl), if_neg (by simp)]
      apply navInv_updateDisplayState <;> intro hc <;> simp at hc
  case bleScanList =>
    simp only [pressSelect]
    rw [if_neg (by simp), if_neg (by simp)]
    by_cases hlen : 0 < b.length
    · rw [if_pos ⟨trivial, hlen⟩]
      apply navInv_updateDisplayState
      · intro hc
        simp at hc
      · intro _
        exact ⟨hlen, h2 rfl hlen⟩
    · rw [if_neg (by rintro ⟨_, hl⟩; exact hlen hl)]
      apply navInv_updateDisplayState <;> intro hc <;> simp at hc
  case wifiDetails =>
    simp only [pressSelect]
    rw [if_neg (by simp), if_neg (by simp), if_neg (by simp)]
    apply navInv_updateDisplayState
    · intro _
      exact h3 rfl
    · intro hc
      simp at hc
  case bleDetails =>
    simp only [pressSelect]
    rw [if_neg (by simp), if_neg (by simp), if_neg (by simp)]
    apply navInv_updateDisplayState
    · intro hc
      simp at hc
    · intro _
      exact h4 rfl

theorem navInv_stepEvent (env : ScanEnv) (now : Nat) (e : Event)
    (s : SysState) (h : NavInv s) : NavInv (stepEvent env now e s) := by
  cases e
  case up => exact navInv_pressUp s h
  case down => exact navInv_pressDown s h
  case select => exact navInv_pressSelect env now s h
  case back => exact navInv_pressBack s
  case tick =>
    simp only [stepEvent]
    split
    · rename_i htrig
      obtain ⟨hst, _⟩ := htrig
      apply navInv_refreshScan <;> rcases hst with hst | hst <;> simp [hst]
    · exact h

/-- The navigation invariant holds in every reachable state. -/
theorem navInv_reachable (s : SysState) (h : Reachable s) : NavInv s := by
  induction h with
  | init => simp [NavInv, initState]
  | step env now e hr ih => exact navInv_stepEvent env now e _ ih

/-!
## C5 — Select in the main menu forces a scan
-/

/-- C5: pressing Select in the main menu always moves to the WiFi list
(stored index 0) or the BLE list (otherwise, in particular index 1) and
runs the scan immediately — the result registry is rebuilt and
`lastScanTime` is set to `now` — for every prior `lastScanTime`, i.e.
the 10-second scheduler is bypassed. -/
theorem C5_select_forces_scan (env : ScanEnv) (now : Nat) (s : SysState)
    (h : s.currentState = .mainMenu) :
    ((pressSelect env now s).currentState =
      if s.listIndex = 0 then MenuState.wifiScanList
      else MenuState.bleScanList) ∧
    (pressSelect env now s).lastScanTime = now ∧
    (s.listIndex = 0 →
      (pressSelect env now s).wifiDevices =
        (scanWiFi env.wifi).wifiDevices) ∧
    (s.listIndex ≠ 0 →
      (pressSelect env now s).bleDevices = scanBLE env.ble) := by
  obtain ⟨st, li, dp, w, b, t⟩ := s
  obtain rfl : st = .mainMenu := h
  simp only [pressSelect]
  rw [if_pos trivial]
  by_cases hli : li = 0 <;>
    simp [hli, refreshScan, updateDisplayState_currentState,
      updateDisplayState_lastScanTime, updateDisplayState_wifiDevices,
      updateDisplayState_bleDevices]

/-- C5 witness: from the power-on state (main menu, index 0), Select at
time 100 enters the WiFi list with the freshly scanned registry. -/
theorem C5_witness :
    (pressSelect exampleScanEnv 100 initState).lastScanTime = 100 ∧
      (pressSelect exampleScanEnv 100 initState).wifiDevices =
        (scanWiFi exampleScanEnv.wifi).wifiDevices :=
  ⟨(C5_select_forces_scan exampleScanEnv 100 initState rfl).2.1,
   (C5_select_forces_scan exampleScanEnv 100 initState rfl).2.2.1 rfl⟩

/-!
## C9 — detail-screen registry accesses are in bounds
-/

/-- C9: in every reachable state sitting on a detail screen, the
corresponding registry is non-empty and the stored `listIndex` is within
`[0, count)`, so the uncorrected registry reads of `drawWifiDetails` and
`drawBleDetails` are in bounds. -/
theorem C9_detail_index_in_bounds (s : SysState) (h : Reachable s) :
    (s.currentState = .wifiDetails →
      0 < s.wifiDevices.length ∧ 0 ≤ s.listIndex ∧
        s.listIndex < (s.wifiDevices.length : Int)) ∧
    (s.currentState = .bleDetails →
      0 < s.bleDevices.length ∧ 0 ≤ s.listIndex ∧
        s.listIndex < (s.bleDevices.length : Int)) :=
  ⟨(navInv_reachable s h).2.2.1, (navInv_reachable s h).2.2.2⟩

/-- C9 witness: the concrete reachable WiFi-detail state (power-on,
Select, Select) has its index in bounds of its one-record registry. -/
theorem C9_witness :
    0 < exampleDetailState.wifiDevices.length ∧
      0 ≤ exampleDetailState.listIndex ∧
      exampleDetailState.listIndex <
        (exampleDetailState.wifiDevices.length : Int) :=
  (C9_detail_index_in_bounds exampleDetailState
    (Reachable.step exampleScanEnv 200 .select
      (Reachable.step exampleScanEnv 100 .select Reachable.init))).1
    (by decide)

/-!
## C10 — Back presses and completed scans reset the selection
-/

/-- C10: every Back press (from any screen, including Detail back to its
List) leaves `listIndex = 0`, and every completed scan — `refreshScan`,
whether forced by Select in the main menu or fired by the periodic
scheduler — leaves `listIndex = 0`, discarding the user's selection. -/
theorem C10_selection_reset (env : ScanEnv) (now : Nat) (s : SysState) :
    (pressBack s).listIndex = 0 ∧
      (refreshScan env now s).listIndex = 0 ∧
      (s.currentState = .mainMenu →
        (pressSelect env now s).listIndex = 0) := by
  refine ⟨?_, refreshScan_listIndex env now s, ?_⟩
  · unfold pressBack
    exact updateDisplayState_listIndex_zero _ rfl
  · intro h
    obtain ⟨st, li, dp, w, b, t⟩ := s
    obtain rfl : st = .mainMenu := h
    simp only [pressSelect]
    rw [if_pos trivial]
    exact updateDisplayState_listIndex_zero _ (refreshScan_listIndex env now _)

/-- C10 witness: Back from the concrete detail state resets the index,
and Select from the main menu (which forces a scan) leaves it 0. -/
theorem C10_witness :
    (pressBack exampleDetailState).listIndex = 0 ∧
      (pressSelect exampleScanEnv 300 initState).listIndex = 0 :=
  ⟨(C10_selection_reset exampleScanEnv 300 exampleDetailState).1,
   (C10_selection_reset exampleScanEnv 300 initState).2.2 rfl⟩

end ESP32Sniffer
